import Mathlib

/-!
Shallow embedding of the `internal/socket` package of LatteSec/ctfjx
(`socket.go`, `dail.go`, `action.go`, `conf.go`).

Bytes are modelled as `Nat` values below 256, byte buffers as `List Nat`.
The Go `net.Conn` stream is external to the package, so its behaviour is
modelled by an oracle record (`RawConn`) carrying the results the stream
would return; time-valued fields (`lastPing`, delays, timeouts) and log
sinks only feed `time.Sleep` and logging and are represented by events
where a claim observes them.
-/

namespace Socket

/-- Error values of the socket package (`errors.New` sentinels plus the
wrapped/joined shapes the package builds from them).  `ioError` stands for
an opaque error produced by the runtime (`net.Dial`, stream reads/writes),
`dialFailed e` for `fmt.Errorf("dial failed: %w", e)`, `tlsWrapFailed e`
for `fmt.Errorf("tls wrap failed: %w", e)`, `failedToDialAfter n last` for
`fmt.Errorf("failed to dial %s after %d attempts: %w", addr, n, lastErr)`
(with `last = none` when `lastErr` is nil), and `joined es` for
`errors.Join(es...)`. -/
inductive GoErr where
  | invalidHeader
  | payloadTooLarge
  | invalidAction
  | connectionClosed
  | connectionNotEstablished
  | connectionAlreadyReconnecting
  | tlsUpgradeFailed
  | exhaustedReconnectAttempts
  | addressRequired
  | ioError (code : Nat)
  | dialFailed (cause : GoErr)
  | tlsWrapFailed (cause : GoErr)
  | failedToDialAfter (attempts : Nat) (cause : Option GoErr)
  | joined (errs : List GoErr)

mutual

/-- Structural equality test on `GoErr` (the `==` that `errors.Is` applies
at each node of the unwrap tree). -/
def GoErr.beq : GoErr → GoErr → Bool
  | .invalidHeader, .invalidHeader => true
  | .payloadTooLarge, .payloadTooLarge => true
  | .invalidAction, .invalidAction => true
  | .connectionClosed, .connectionClosed => true
  | .connectionNotEstablished, .connectionNotEstablished => true
  | .connectionAlreadyReconnecting, .connectionAlreadyReconnecting => true
  | .tlsUpgradeFailed, .tlsUpgradeFailed => true
  | .exhaustedReconnectAttempts, .exhaustedReconnectAttempts => true
  | .addressRequired, .addressRequired => true
  | .ioError a, .ioError b => a == b
  | .dialFailed a, .dialFailed b => GoErr.beq a b
  | .tlsWrapFailed a, .tlsWrapFailed b => GoErr.beq a b
  | .failedToDialAfter n (some a), .failedToDialAfter m (some b) =>
      n == m && GoErr.beq a b
  | .failedToDialAfter n none, .failedToDialAfter m none => n == m
  | .joined a, .joined b => GoErr.beqList a b
  | _, _ => false

/-- Pointwise `GoErr.beq` on lists. -/
def GoErr.beqList : List GoErr → List GoErr → Bool
  | [], [] => true
  | a :: as, b :: bs => GoErr.beq a b && GoErr.beqList as bs
  | _, _ => false

end

mutual

/-- `errors.Is(e, target)`: true when `target` appears anywhere in the
unwrap tree of `e` (the wrapped cause of `fmt.Errorf %w` shapes, every
member of an `errors.Join`). -/
def GoErr.containsErr : GoErr → GoErr → Bool
  | .dialFailed c, t => GoErr.beq (.dialFailed c) t || GoErr.containsErr c t
  | .tlsWrapFailed c, t => GoErr.beq (.tlsWrapFailed c) t || GoErr.containsErr c t
  | .failedToDialAfter n (some c), t =>
      GoErr.beq (.failedToDialAfter n (some c)) t || GoErr.containsErr c t
  | .joined es, t => GoErr.beq (.joined es) t || GoErr.containsErrList es t
  | e, t => GoErr.beq e t

/-- `GoErr.containsErr` over every member of a joined list. -/
def GoErr.containsErrList : List GoErr → GoErr → Bool
  | [], _ => false
  | e :: es, t => GoErr.containsErr e t || GoErr.containsErrList es t

end

/-- The packet header (`Header` in `socket.go`): a 1-byte action tag and a
64-bit payload length.  `Action` is the value of the Go `uint8`, `Len` the
value of the Go `uint64`. -/
structure Header where
  Action : Nat
  Len : Nat
deriving DecidableEq

/-- `binary.BigEndian.PutUint64`: the eight bytes of `v`, most significant
first (`buf[i] = byte(v >> (56 - 8*i))`). -/
def putUint64BE (v : Nat) : List Nat :=
  [v / 2 ^ 56 % 256, v / 2 ^ 48 % 256, v / 2 ^ 40 % 256, v / 2 ^ 32 % 256,
   v / 2 ^ 24 % 256, v / 2 ^ 16 % 256, v / 2 ^ 8 % 256, v % 256]

/-- `binary.BigEndian.Uint64`: big-endian value of the first eight bytes. -/
def getUint64BE (b : List Nat) : Nat :=
  (b.take 8).foldl (fun acc x => acc * 256 + x) 0

/-- `Header.MarshalBytes`: a 9-byte buffer, action in byte 0 (`byte(h.Action)`,
modelled by `% 256`), length big-endian in bytes 1..8.  The Go version also
returns an error value that is always nil. -/
def Header.MarshalBytes (h : Header) : List Nat :=
  h.Action % 256 :: putUint64BE h.Len

/-- `Header.UnmarshalBytes` (via `UnmarshalHeader`, which returns the header
by value): fails with `ErrInvalidHeader` on fewer than 9 bytes, otherwise
takes the action from byte 0 and the length from bytes 1..8 big-endian. -/
def Header.UnmarshalBytes (buf : List Nat) : Except GoErr Header :=
  if buf.length < 9 then .error .invalidHeader
  else .ok { Action := buf.getD 0 0, Len := getUint64BE (buf.drop 1) }

/-- `UnmarshalHeader`: decode a fresh header from `buf`. -/
def UnmarshalHeader (buf : List Nat) : Except GoErr Header :=
  Header.UnmarshalBytes buf

/-- `ConnState` (`socket.go`): `opened` stands for `ConnStateOpen` (Lean
reserves the word `open`); the other constructors keep the Go names. -/
inductive ConnState where
  | idle
  | unknown
  | opened
  | closed
  | reconnecting
deriving DecidableEq

/-- Oracle for the external `net.Conn` stream held in `Conn.raw`: the
results the runtime would return for each operation the package performs
on it.  `writeResult` is the `(n, err)` pair of `raw.Write`. -/
structure RawConn where
  closeErr : Option GoErr := none
  setWriteDeadlineErr : Option GoErr := none
  writeResult : Nat × Option GoErr := (0, none)
  clearWriteDeadlineErr : Option GoErr := none

/-- `ConnConfig` (`conf.go`), restricted to the fields that influence the
modelled control flow.  `Handlers` is the key set of the Go
`map[Action]HandlerFunc` (actions with a registered handler); the handler
bodies are caller-supplied and appear only as dispatch events.  String and
duration fields (`Address`, `Name`, delays, timeouts, `MaxHeaderSize`)
feed only dialing, sleeping and log metadata. -/
structure ConnConfig where
  UseTLS : Bool := false
  AutoReconnect : Bool := true
  MaxReconnectionAttempts : Nat := 10
  MaxMessageSize : Nat := 4194304
  Handlers : List Nat := []

/-- `Conn` (`socket.go`).  `raw = none` is Go's nil `net.Conn`;
`ReadDone = none` is a nil channel, `some false` an open channel,
`some true` a closed one; `pongCh` records whether the pong channel is
allocated.  `lastPing` (a wall-clock time) and the two mutexes are not
data; lock usage is modelled where a claim observes it. -/
structure Conn where
  Config : ConnConfig
  raw : Option RawConn
  state : ConnState
  ReadDone : Option Bool
  pongCh : Bool

/-- `NewConnWithRaw`: a fresh `Idle` connection around an optional
pre-established stream; channels are nil. -/
def NewConnWithRaw (raw : Option RawConn) (cfg : ConnConfig) : Conn :=
  { Config := cfg, raw := raw, state := .idle, ReadDone := none, pongCh := false }

/-- `NewConn`: `NewConnWithRaw(nil, cfg)`. -/
def NewConn (cfg : ConnConfig) : Conn :=
  NewConnWithRaw none cfg

/-- `IsOpen`: true iff the state is `Open`. -/
def Conn.IsOpen (c : Conn) : Bool :=
  c.state = ConnState.opened

/-- Operations `Conn.Write` performs on the raw stream. -/
inductive StreamOp where
  | setWriteDeadline
  | writeBytes (b : List Nat)
  | clearWriteDeadline
deriving DecidableEq

/-- Result of a Go call that can fault: `panicked` marks a nil-pointer
dereference, `res n e` a normal return of `(n, err)`. -/
inductive WriteOutcome where
  | panicked
  | res (n : Nat) (e : Option GoErr)

/-- `Conn.Write`: under the send lock, reject with
`ErrConnectionNotEstablished` unless the state is `Open`; otherwise set
the write deadline, write, clear the deadline, surfacing deadline errors
first.  The second component lists the operations performed on the raw
stream. -/
def Conn.Write (c : Conn) (b : List Nat) : WriteOutcome × List StreamOp :=
  if c.state ≠ ConnState.opened then
    (.res 0 (some .connectionNotEstablished), [])
  else
    match c.raw with
    | none => (.panicked, [])
    | some r =>
      match r.setWriteDeadlineErr with
      | some e => (.res 0 (some e), [.setWriteDeadline])
      | none =>
        match r.clearWriteDeadlineErr with
        | some e =>
            (.res 0 (some e), [.setWriteDeadline, .writeBytes b, .clearWriteDeadline])
        | none =>
            (.res r.writeResult.1 r.writeResult.2,
             [.setWriteDeadline, .writeBytes b, .clearWriteDeadline])

/-- Result of `Conn.Close`: `panicked` when `c.raw` is nil (the method is
invoked on a nil stream), `errored e` when the stream's own `Close`
fails (state becomes `Unknown`), `ok closedReadDone` on success, recording
whether this call closed the read-done channel. -/
inductive CloseRes where
  | panicked
  | errored (e : GoErr)
  | ok (closedReadDone : Bool)

/-- `Conn.Close`: under both locks, close the raw stream; on failure state
becomes `Unknown` and the error is returned; on success close `ReadDone`
unless it is nil or already closed (the `select` with `default`), nil the
channel fields and the stream, and set state `Closed`. -/
def Conn.Close (c : Conn) : CloseRes × Conn :=
  match c.raw with
  | none => (.panicked, c)
  | some r =>
    match r.closeErr with
    | some e => (.errored e, { c with state := .unknown })
    | none =>
        (.ok (c.ReadDone = some false),
         { c with raw := none, ReadDone := none, pongCh := false, state := .closed })

/-- Acquisitions and releases of the connection mutex `muConn`. -/
inductive LockEvent where
  | lockConn
  | unlockConn
deriving DecidableEq

/-- A lock trace is balanced when it acquires and releases equally often. -/
def lockBalanced (t : List LockEvent) : Bool :=
  t.count LockEvent.lockConn = t.count LockEvent.unlockConn

/-- `Conn.Listen`: takes the connection lock; if the state is already
`Open` it returns at once, otherwise it marks the connection `Open`,
allocates the pong and read-done channels, releases the lock and runs the
read loop inline.  The first component is the trace of `muConn`
operations performed by `Listen`'s own body (the inline `readLoop` call
is modelled separately by `Conn.readLoopGo`). -/
def Conn.Listen (c : Conn) : List LockEvent × Conn :=
  if c.state = ConnState.opened then
    ([.lockConn], c)
  else
    ([.lockConn, .unlockConn],
     { c with state := .opened, pongCh := true, ReadDone := some false })

/-- Externally visible steps of the connect path: a `net.Dial` attempt, a
TLS handshake, and the two `go` statements spawning the background
tasks. -/
inductive NetEvent where
  | dialAttempt
  | tlsWrap
  | spawnHeartbeat
  | spawnReadLoop
deriving DecidableEq

/-- Oracle for one connect attempt: the result `net.Dial` would return and
the result `WrapTLS` would return on the dialed stream. -/
structure NetOracle where
  dial : Except GoErr RawConn
  wrapTLS : RawConn → Except GoErr RawConn

/-- The internal lowercase `connect` (caller holds both locks): a no-op
when already `Open`; otherwise dial (joining
`ErrConnectionNotEstablished` with the wrapped dial error on failure),
optionally TLS-wrap (joining `ErrConnectionTLSUpgradeFailed` on failure),
then install the stream, set state `Open`, allocate the pong and
read-done channels and spawn the heartbeat and read-loop tasks. -/
def Conn.connect (c : Conn) (o : NetOracle) : Option GoErr × Conn × List NetEvent :=
  if c.state = ConnState.opened then (none, c, [])
  else
    match o.dial with
    | .error e =>
        (some (.joined [.connectionNotEstablished, .dialFailed e]), c, [.dialAttempt])
    | .ok conn =>
      if c.Config.UseTLS then
        match o.wrapTLS conn with
        | .error e =>
            (some (.joined [.tlsUpgradeFailed, .tlsWrapFailed e]), c, [.dialAttempt, .tlsWrap])
        | .ok tlsConn =>
            (none,
             { c with raw := some tlsConn, state := .opened,
                      pongCh := true, ReadDone := some false },
             [.dialAttempt, .tlsWrap, .spawnHeartbeat, .spawnReadLoop])
      else
        (none,
         { c with raw := some conn, state := .opened,
                  pongCh := true, ReadDone := some false },
         [.dialAttempt, .spawnHeartbeat, .spawnReadLoop])

/-- The public `Connect`: under both locks, a successful no-op when the
state is `Reconnecting`, otherwise the internal connect. -/
def Conn.Connect (c : Conn) (o : NetOracle) : Option GoErr × Conn × List NetEvent :=
  if c.state = ConnState.reconnecting then (none, c, [])
  else c.connect o

/-- The internal lowercase `reconnect` (one attempt): under both locks,
fail with `ErrConnectionClosed` when `Closed`; otherwise mark the state
`Reconnecting` and run the internal connect. -/
def Conn.reconnect (c : Conn) (o : NetOracle) : Option GoErr × Conn × List NetEvent :=
  if c.state = ConnState.closed then (some .connectionClosed, c, [])
  else ({ c with state := .reconnecting }).connect o

/-- The retry loop of `Reconnect`: run the internal reconnect with the
oracle of attempt `i`, returning on the first success, accumulating each
attempt's error in `allErrs` and the dial/TLS events in `evs`; once
`remaining` attempts are spent, return `errors.Join(allErrs...)`. -/
def reconnectLoop (os : Nat → NetOracle) :
    Conn → Nat → Nat → List GoErr → List NetEvent → Option GoErr × Conn × List NetEvent
  | c, _, 0, allErrs, evs => (some (.joined allErrs), c, evs)
  | c, i, remaining + 1, allErrs, evs =>
    match c.reconnect (os i) with
    | (none, c', evs') => (none, c', evs ++ evs')
    | (some err, c', evs') =>
        reconnectLoop os c' (i + 1) remaining (allErrs ++ [err]) (evs ++ evs')

/-- The public `Reconnect`: fail fast with `ErrConnectionClosed` when
`Closed` and `ErrConnectionAlreadyReconnecting` when already
`Reconnecting`; otherwise retry up to `MaxReconnectionAttempts` times,
seeding the error list with `ErrExhaustedReconnectAttempts`. -/
def Conn.Reconnect (c : Conn) (os : Nat → NetOracle) : Option GoErr × Conn × List NetEvent :=
  if c.state = ConnState.closed then (some .connectionClosed, c, [])
  else if c.state = ConnState.reconnecting then
    (some .connectionAlreadyReconnecting, c, [])
  else
    reconnectLoop os c 0 c.Config.MaxReconnectionAttempts
      [.exhaustedReconnectAttempts] []

/-- Observable per-iteration events of the read loop (log lines, handler
dispatches, the exit taken when the state is no longer `Open`, and a
runtime panic surfaced by a nested call). -/
inductive ReadEvent where
  | exitNotOpen
  | logPeerClosed
  | logCloseFailed
  | logReadErr
  | logUnmarshalErr
  | logNoHandler (action : Nat)
  | logPayloadTooLarge
  | logPayloadReadErr
  | dispatch (header : Header) (payload : List Nat)
  | panicRaised
deriving DecidableEq

/-- Events the `Close` calls inside the read loop contribute. -/
def closeEvents : CloseRes → List ReadEvent
  | .ok _ => []
  | .errored _ => [.logCloseFailed]
  | .panicked => [.panicRaised]

/-- The body of `readLoop` (`socket.go`), iterated `fuel` times at most
over an incoming byte stream `input`.  Each iteration: exit when the
state is not `Open`; read 9 header bytes (`io.ReadFull`: an empty stream
is EOF — log, `Close`, return; a short stream consumes what is left and
continues); decode the header (failure logs and continues); look up the
handler (a missing handler logs and continues without consuming the
body); compare the length against `MaxMessageSize` (too large logs,
`Close`s and returns); read the payload (a short read consumes the rest
and continues); dispatch the handler on a fresh task.  Returns the
events, the final connection and the unconsumed input. -/
def Conn.readLoopGo : Conn → List Nat → Nat → List ReadEvent × Conn × List Nat
  | c, input, 0 => ([], c, input)
  | c, input, fuel + 1 =>
    if c.state ≠ ConnState.opened then ([.exitNotOpen], c, input)
    else if input.length = 0 then
      let (res, c') := c.Close
      (ReadEvent.logPeerClosed :: closeEvents res, c', input)
    else if input.length < 9 then
      let r := Conn.readLoopGo c [] fuel
      (ReadEvent.logReadErr :: r.1, r.2)
    else
      match UnmarshalHeader (input.take 9) with
      | .error _ =>
        let r := Conn.readLoopGo c (input.drop 9) fuel
        (ReadEvent.logUnmarshalErr :: r.1, r.2)
      | .ok header =>
        if c.Config.Handlers.contains header.Action = false then
          let r := Conn.readLoopGo c (input.drop 9) fuel
          (ReadEvent.logNoHandler header.Action :: r.1, r.2)
        else if header.Len > c.Config.MaxMessageSize then
          let (res, c') := c.Close
          (ReadEvent.logPayloadTooLarge :: closeEvents res, c', input.drop 9)
        else if (input.drop 9).length < header.Len then
          let r := Conn.readLoopGo c [] fuel
          (ReadEvent.logPayloadReadErr :: r.1, r.2)
        else
          let payload := (input.drop 9).take header.Len
          let r := Conn.readLoopGo c ((input.drop 9).drop header.Len) fuel
          (ReadEvent.dispatch header payload :: r.1, r.2)

/-- `readLoop`: remake the read-done channel under the lock, then iterate
the loop body. -/
def Conn.readLoop (c : Conn) (input : List Nat) (fuel : Nat) :
    List ReadEvent × Conn × List Nat :=
  Conn.readLoopGo { c with ReadDone := some false } input fuel

/-- Oracle for `DailWithRetry` (`dail.go`): per attempt `i`, the result of
`net.Dial`, the result of `WrapTLS` on the dialed stream, and the error
(if any) of closing the half-open stream after a failed handshake. -/
structure DialOracle where
  dial : Nat → Except GoErr RawConn
  wrapTLS : Nat → RawConn → Except GoErr RawConn
  closeErr : Nat → Option GoErr

/-- The attempt loop of `DailWithRetry`, carrying `lastErr`: a failed dial
records its error and retries after the delay; a failed TLS handshake
records its error (joined with the close error if closing the half-open
stream also fails) and retries; a successful attempt returns a fresh
connection around the (possibly TLS-wrapped) stream.  When the attempts
are spent it returns `fmt.Errorf("failed to dial %s after %d attempts:
%w", addr, attempts, lastErr)`. -/
def dailLoop (cfg : ConnConfig) (o : DialOracle) :
    Option GoErr → Nat → Nat → Except GoErr Conn
  | lastErr, _, 0 =>
      .error (.failedToDialAfter cfg.MaxReconnectionAttempts lastErr)
  | _lastErr, i, remaining + 1 =>
    match o.dial i with
    | .error e => dailLoop cfg o (some e) (i + 1) remaining
    | .ok conn =>
      if cfg.UseTLS then
        match o.wrapTLS i conn with
        | .error e =>
          let le := match o.closeErr i with
            | none => e
            | some ce => GoErr.joined [e, ce]
          dailLoop cfg o (some le) (i + 1) remaining
        | .ok tlsConn => .ok (NewConnWithRaw (some tlsConn) cfg)
      else .ok (NewConnWithRaw (some conn) cfg)

/-- `DailWithRetry`: up to `MaxReconnectionAttempts` dial attempts
starting with no recorded error. -/
def DailWithRetry (cfg : ConnConfig) (o : DialOracle) : Except GoErr Conn :=
  dailLoop cfg o none 0 cfg.MaxReconnectionAttempts

/-- Concrete configuration used by the evaluation fixtures: one registered
action (1), a 10-byte message cap, two reconnection attempts. -/
def cfg0 : ConnConfig :=
  { Handlers := [1], MaxMessageSize := 10, MaxReconnectionAttempts := 2 }

/-- A raw stream whose every operation succeeds. -/
def rawOK : RawConn := {}

/-- An open connection over `rawOK` with live channels. -/
def cOpen : Conn :=
  { Config := cfg0, raw := some rawOK, state := .opened,
    ReadDone := some false, pongCh := true }

/-- A freshly constructed (Idle) connection. -/
def cIdle : Conn := NewConn cfg0

/-- A connection in the `Closed` state. -/
def cClosedFix : Conn := { cOpen with state := .closed }

/-- A connection in the `Reconnecting` state. -/
def cRecFix : Conn := { cOpen with state := .reconnecting }

/-- A connect-attempt oracle whose dial always fails. -/
def o0 : NetOracle := { dial := .error (.ioError 0), wrapTLS := fun r => .ok r }

/-- The per-attempt oracle family that always uses `o0`. -/
def os0 : Nat → NetOracle := fun _ => o0

/-- A dial oracle whose attempt `i` fails with the distinct error
`ioError (i + 1)`. -/
def oX : DialOracle :=
  { dial := fun i => .error (.ioError (i + 1)),
    wrapTLS := fun _ r => .ok r,
    closeErr := fun _ => none }

theorem putUint64BE_length (v : Nat) : (putUint64BE v).length = 8 := rfl

theorem MarshalBytes_length (h : Header) : h.MarshalBytes.length = 9 := rfl

theorem getUint64BE_putUint64BE (v : Nat) (hv : v < 2 ^ 64) :
    getUint64BE (putUint64BE v) = v := by
  simp only [getUint64BE, putUint64BE, List.take, List.foldl]
  omega

/-- Decoding the encoding of a header recovers it, for any 8-bit action and
64-bit length. -/
theorem UnmarshalHeader_MarshalBytes (h : Header)
    (ha : h.Action < 256) (hl : h.Len < 2 ^ 64) :
    UnmarshalHeader h.MarshalBytes = .ok h := by
  have hlen : h.MarshalBytes.length = 9 := MarshalBytes_length h
  simp only [UnmarshalHeader, Header.UnmarshalBytes, hlen]
  norm_num
  simp only [Header.MarshalBytes, List.getD, List.getElem?_cons_zero,
    Option.getD_some, List.tail_cons]
  rw [getUint64BE_putUint64BE h.Len hl]
  simp [Nat.mod_eq_of_lt ha]

/-- Claim C5: for every header `h` (any 8-bit action and any 64-bit
length), decoding the 9-byte encoding of `h` yields `h` again:
`decode(encode(h)) = h`. -/
theorem header_roundtrip (h : Header) (ha : h.Action < 256) (hl : h.Len < 2 ^ 64) :
    UnmarshalHeader h.MarshalBytes = .ok h :=
  UnmarshalHeader_MarshalBytes h ha hl

/-- Witness for C5 at the concrete header `⟨3, 77777⟩`. -/
theorem header_roundtrip_witness :
    UnmarshalHeader (Header.MarshalBytes ⟨3, 77777⟩) = .ok ⟨3, 77777⟩ :=
  header_roundtrip ⟨3, 77777⟩ (by norm_num) (by norm_num)

/-- Claim C8: header decode fails with `ErrInvalidHeader` exactly when the
buffer holds fewer than 9 bytes; on any buffer of at least 9 bytes it
succeeds, taking the action from byte 0 and the length from bytes 1..8
big-endian, with no validation of the action value. -/
theorem UnmarshalBytes_invalid_iff_short (buf : List Nat) :
    (buf.length < 9 → Header.UnmarshalBytes buf = .error .invalidHeader)
  ∧ (9 ≤ buf.length →
      Header.UnmarshalBytes buf =
        .ok { Action := buf.getD 0 0, Len := getUint64BE (buf.drop 1) }) := by
  constructor
  · intro h
    simp [Header.UnmarshalBytes, h]
  · intro h
    rw [Header.UnmarshalBytes, if_neg (by omega)]

/-- Witness for C8: a 3-byte buffer is rejected, a 9-byte buffer with an
unreserved action byte 255 decodes without action validation. -/
theorem UnmarshalBytes_invalid_iff_short_witness :
    Header.UnmarshalBytes [1, 2, 3] = .error .invalidHeader
  ∧ Header.UnmarshalBytes [255, 0, 0, 0, 0, 0, 0, 0, 5] =
      .ok { Action := 255, Len := 5 } :=
  ⟨(UnmarshalBytes_invalid_iff_short [1, 2, 3]).1 (by norm_num),
   (UnmarshalBytes_invalid_iff_short [255, 0, 0, 0, 0, 0, 0, 0, 5]).2 (by norm_num)⟩

/-- Claim C6: `Write` returns `ErrConnectionNotEstablished` and performs no
operation on the underlying stream whenever the state is not `Open`; a
fresh connection is `Idle` and a successful `Close` leaves the state
`Closed`, so both are rejected. -/
theorem Write_rejected_when_not_open :
    (∀ (c : Conn) (b : List Nat), c.state ≠ ConnState.opened →
        c.Write b = (.res 0 (some .connectionNotEstablished), []))
  ∧ (∀ cfg : ConnConfig, (NewConn cfg).state = ConnState.idle)
  ∧ (∀ (c c' : Conn) (d : Bool), c.Close = (.ok d, c') → c'.state = ConnState.closed) := by
  refine ⟨?_, ?_, ?_⟩
  · intro c b h
    simp [Conn.Write, h]
  · intro cfg
    rfl
  · intro c c' d h
    cases hr : c.raw with
    | none => simp [Conn.Close, hr] at h
    | some r =>
      cases hce : r.closeErr with
      | some e => simp [Conn.Close, hr, hce] at h
      | none =>
        simp [Conn.Close, hr, hce] at h
        rw [← h.2]

/-- Witness for C6: the Idle fixture is rejected with no stream operation,
`NewConn` is Idle, and the connection left by a successful `Close` is
`Closed`. -/
theorem Write_rejected_when_not_open_witness :
    Conn.Write cIdle [7] = (.res 0 (some .connectionNotEstablished), [])
  ∧ (NewConn cfg0).state = ConnState.idle
  ∧ ((cOpen.Close).2).state = ConnState.closed :=
  ⟨Write_rejected_when_not_open.1 cIdle [7] (by decide),
   Write_rejected_when_not_open.2.1 cfg0,
   Write_rejected_when_not_open.2.2 cOpen ((cOpen.Close).2) true rfl⟩

/-- Claim C2 (code bug): the first `Close` of an open connection succeeds,
closing the read-done channel once and reaching `Closed`; the second
`Close` then dereferences the nil stream (`c.raw.Close()` with
`raw = nil`) and panics instead of being a safe no-op. -/
theorem Close_twice_second_panics :
    (cOpen.Close).1 = CloseRes.ok true
  ∧ ((cOpen.Close).2).state = ConnState.closed
  ∧ ((cOpen.Close).2).raw = none
  ∧ (((cOpen.Close).2).Close).1 = CloseRes.panicked :=
  ⟨rfl, rfl, rfl, rfl⟩

/-- Claim C7: `Reconnect` fails fast — `ErrConnectionClosed` on a `Closed`
connection and `ErrConnectionAlreadyReconnecting` on a `Reconnecting`
one, in both cases leaving the connection unchanged and attempting no
dial (no network events). -/
theorem Reconnect_fails_fast (c : Conn) (os : Nat → NetOracle) :
    (c.state = ConnState.closed →
        c.Reconnect os = (some .connectionClosed, c, []))
  ∧ (c.state = ConnState.reconnecting →
        c.Reconnect os = (some .connectionAlreadyReconnecting, c, [])) := by
  constructor <;> intro h <;> simp [Conn.Reconnect, h]

/-- Witness for C7 on the `Closed` and `Reconnecting` fixtures. -/
theorem Reconnect_fails_fast_witness :
    Conn.Reconnect cClosedFix os0 = (some .connectionClosed, cClosedFix, [])
  ∧ Conn.Reconnect cRecFix os0 = (some .connectionAlreadyReconnecting, cRecFix, []) :=
  ⟨(Reconnect_fails_fast cClosedFix os0).1 rfl,
   (Reconnect_fails_fast cRecFix os0).2 rfl⟩

/-- Claim C9: `Connect` invoked while the state is `Reconnecting` is a
successful no-op — no error, no dial or task events, and the connection
record (state and every other field) unchanged. -/
theorem Connect_noop_when_reconnecting (c : Conn) (o : NetOracle)
    (h : c.state = ConnState.reconnecting) :
    c.Connect o = (none, c, []) := by
  simp [Conn.Connect, h]

/-- Witness for C9 on the `Reconnecting` fixture. -/
theorem Connect_noop_when_reconnecting_witness :
    Conn.Connect cRecFix o0 = (none, cRecFix, []) :=
  Connect_noop_when_reconnecting cRecFix o0 rfl

/-- Claim C10 (code bug): `Listen` on an already-`Open` connection returns
from its early path with the connection lock still held (one acquisition,
no release), violating the lock-balance invariant; the normal path is
balanced. -/
theorem Listen_lock_unbalanced_when_open :
    (cOpen.Listen).1 = [LockEvent.lockConn]
  ∧ lockBalanced (cOpen.Listen).1 = false
  ∧ lockBalanced (cIdle.Listen).1 = true :=
  ⟨rfl, rfl, rfl⟩

theorem take_marshal_append (h : Header) (rest : List Nat) :
    (h.MarshalBytes ++ rest).take 9 = h.MarshalBytes := by
  rw [← MarshalBytes_length h]
  exact List.take_left _ _

theorem drop_marshal_append (h : Header) (rest : List Nat) :
    (h.MarshalBytes ++ rest).drop 9 = rest := by
  rw [← MarshalBytes_length h]
  exact List.drop_left _ _

/-- Claim C1: a well-formed frame whose action has no registered handler
makes the reader log the missing handler and continue: the iteration
consumes exactly the 9 header bytes (the body is not consumed), does not
close the connection, and the loop proceeds on the remaining stream,
dispatching subsequent frames by their own headers. -/
theorem readLoop_missing_handler (c : Conn) (a n : Nat) (rest : List Nat) (fuel : Nat)
    (hstate : c.state = ConnState.opened)
    (hmiss : c.Config.Handlers.contains a = false)
    (ha : a < 256) (hn : n < 2 ^ 64) :
    Conn.readLoopGo c (Header.MarshalBytes ⟨a, n⟩ ++ rest) (fuel + 1) =
      (ReadEvent.logNoHandler a :: (Conn.readLoopGo c rest fuel).1,
       (Conn.readLoopGo c rest fuel).2) := by
  have hlen : (Header.MarshalBytes ⟨a, n⟩ ++ rest).length = 9 + rest.length := by
    simp [MarshalBytes_length]
  have hUn : UnmarshalHeader ((Header.MarshalBytes ⟨a, n⟩ ++ rest).take 9) =
      .ok ⟨a, n⟩ := by
    rw [take_marshal_append]
    exact UnmarshalHeader_MarshalBytes ⟨a, n⟩ ha hn
  have hmem : a ∉ c.Config.Handlers := by simpa using hmiss
  rw [Conn.readLoopGo, if_neg (by simp [hstate]), if_neg (by omega), if_neg (by omega),
    hUn]
  simp [hmem, drop_marshal_append]

/-- Witness for C1: the unregistered action 7 is logged and skipped, after
which the frame for the registered action 1 is still dispatched. -/
theorem readLoop_missing_handler_witness :
    Conn.readLoopGo cOpen (Header.MarshalBytes ⟨7, 0⟩ ++ Header.MarshalBytes ⟨1, 0⟩) 2 =
      (ReadEvent.logNoHandler 7 ::
        (Conn.readLoopGo cOpen (Header.MarshalBytes ⟨1, 0⟩) 1).1,
       (Conn.readLoopGo cOpen (Header.MarshalBytes ⟨1, 0⟩) 1).2) :=
  readLoop_missing_handler cOpen 7 0 (Header.MarshalBytes ⟨1, 0⟩) 1 rfl rfl
    (by norm_num) (by norm_num)

/-- Counterexample for C3: a frame whose length field 11 exceeds the
configured maximum 10 but whose action 7 has no registered handler is
skipped at the handler check before the size check — the reader does not
close the connection or exit, and still dispatches the next frame. -/
theorem readLoop_oversized_unregistered_not_fatal :
    (Conn.readLoopGo cOpen
        (Header.MarshalBytes ⟨7, 11⟩ ++ Header.MarshalBytes ⟨1, 0⟩) 2).1 =
      [ReadEvent.logNoHandler 7, ReadEvent.dispatch ⟨1, 0⟩ []]
  ∧ ((Conn.readLoopGo cOpen
        (Header.MarshalBytes ⟨7, 11⟩ ++ Header.MarshalBytes ⟨1, 0⟩) 2).2.1).state =
      ConnState.opened
  ∧ cOpen.Config.MaxMessageSize < 11 :=
  ⟨rfl, rfl, by decide⟩

/-- Claim C3 as amended: a received frame whose action has a registered
handler and whose length field exceeds `MaxMessageSize` is fatal — the
reader logs, closes the connection (state `Closed`, `IsOpen` false) and
exits, leaving the rest of the stream unprocessed. -/
theorem readLoop_oversized_registered_fatal (c : Conn) (a n : Nat) (rest : List Nat)
    (fuel : Nat) (r : RawConn)
    (hstate : c.state = ConnState.opened)
    (hreg : c.Config.Handlers.contains a = true)
    (hsize : c.Config.MaxMessageSize < n)
    (ha : a < 256) (hn : n < 2 ^ 64)
    (hraw : c.raw = some r) (hclose : r.closeErr = none) :
    Conn.readLoopGo c (Header.MarshalBytes ⟨a, n⟩ ++ rest) (fuel + 1) =
      ([ReadEvent.logPayloadTooLarge],
       { c with raw := none, ReadDone := none, pongCh := false, state := .closed },
       rest)
  ∧ Conn.IsOpen
      { c with raw := none, ReadDone := none, pongCh := false, state := .closed } =
      false := by
  refine ⟨?_, rfl⟩
  have hlen : (Header.MarshalBytes ⟨a, n⟩ ++ rest).length = 9 + rest.length := by
    simp [MarshalBytes_length]
  have hUn : UnmarshalHeader ((Header.MarshalBytes ⟨a, n⟩ ++ rest).take 9) =
      .ok ⟨a, n⟩ := by
    rw [take_marshal_append]
    exact UnmarshalHeader_MarshalBytes ⟨a, n⟩ ha hn
  rw [Conn.readLoopGo, if_neg (by simp [hstate]), if_neg (by omega), if_neg (by omega),
    hUn]
  simp only [hreg, Conn.Close, hraw, hclose, closeEvents, drop_marshal_append]
  rw [if_neg (by simp), if_pos (by exact hsize)]

/-- Witness for C3 as amended: an 11-byte length for the registered action
1 under the 10-byte cap closes the open fixture connection. -/
theorem readLoop_oversized_registered_fatal_witness :
    Conn.readLoopGo cOpen (Header.MarshalBytes ⟨1, 11⟩ ++ []) 1 =
      ([ReadEvent.logPayloadTooLarge],
       { cOpen with raw := none, ReadDone := none, pongCh := false, state := .closed },
       [])
  ∧ Conn.IsOpen
      { cOpen with raw := none, ReadDone := none, pongCh := false, state := .closed } =
      false :=
  readLoop_oversized_registered_fatal cOpen 1 11 [] 0 rawOK rfl rfl (by decide)
    (by norm_num) (by norm_num) rfl rfl

theorem dailLoop_all_fail (cfg : ConnConfig) (o : DialOracle) (es : Nat → GoErr) :
    ∀ (rem i : Nat) (le : Option GoErr),
      (∀ j, i ≤ j → j < i + (rem + 1) → o.dial j = .error (es j)) →
      dailLoop cfg o le i (rem + 1) =
        .error (.failedToDialAfter cfg.MaxReconnectionAttempts (some (es (i + rem)))) := by
  intro rem
  induction rem with
  | zero =>
    intro i le h
    have hd : o.dial i = .error (es i) := h i (by omega) (by omega)
    simp [dailLoop, hd]
  | succ k ih =>
    intro i le h
    have hd : o.dial i = .error (es i) := h i (by omega) (by omega)
    rw [dailLoop, hd]
    dsimp only
    rw [ih (i + 1) (some (es i)) (fun j h1 h2 => h j (by omega) (by omega))]
    rw [(by omega : i + 1 + k = i + (k + 1))]

/-- Counterexample for C4: with two attempts failing with the distinct
errors `ioError 1` and `ioError 2`, `DailWithRetry` returns only the last
error wrapped in the "failed to dial after N attempts" message; the
returned error's unwrap chain contains neither the
`ErrExhaustedReconnectAttempts` sentinel nor the first attempt's error. -/
theorem DailWithRetry_keeps_only_last_error :
    DailWithRetry cfg0 oX = .error (.failedToDialAfter 2 (some (.ioError 2)))
  ∧ GoErr.containsErr (.failedToDialAfter 2 (some (.ioError 2)))
      .exhaustedReconnectAttempts = false
  ∧ GoErr.containsErr (.failedToDialAfter 2 (some (.ioError 2))) (.ioError 1) = false := by
  refine ⟨rfl, ?_, ?_⟩ <;> simp [GoErr.containsErr, GoErr.beq]

/-- Claim C4 as amended: when every dial attempt fails, `DailWithRetry`
returns `fmt.Errorf("failed to dial %s after %d attempts: %w", ...)`
wrapping only the final attempt's error; earlier attempts' errors are
discarded and no exhausted-reconnect-attempts sentinel is attached. -/
theorem DailWithRetry_exhausted_last_error (cfg : ConnConfig) (o : DialOracle)
    (es : Nat → GoErr)
    (hpos : 0 < cfg.MaxReconnectionAttempts)
    (hfail : ∀ j, j < cfg.MaxReconnectionAttempts → o.dial j = .error (es j)) :
    DailWithRetry cfg o =
      .error (.failedToDialAfter cfg.MaxReconnectionAttempts
               (some (es (cfg.MaxReconnectionAttempts - 1)))) := by
  obtain ⟨m, hm⟩ : ∃ m, cfg.MaxReconnectionAttempts = m + 1 :=
    ⟨cfg.MaxReconnectionAttempts - 1, by omega⟩
  unfold DailWithRetry
  have := dailLoop_all_fail cfg o es m 0 none
    (fun j h1 h2 => hfail j (by omega))
  rw [hm, this]
  norm_num
  exact hm

/-- Witness for C4 as amended, on the two-attempt fixture oracle. -/
theorem DailWithRetry_exhausted_last_error_witness :
    DailWithRetry cfg0 oX = .error (.failedToDialAfter 2 (some (.ioError 2))) :=
  DailWithRetry_exhausted_last_error cfg0 oX (fun i => .ioError (i + 1))
    (by decide) (fun j _ => rfl)

end Socket
